import Mathlib

/-!
Shallow embedding of the command dispatch and contextual-response subsystem
of the neo Discord bot (src/neo/core/__init__.py and src/neo/context.py),
together with theorems settling the specification claims about it.

Machine conventions: user, guild and message identifiers are `Nat`;
time is `ℚ` (rational time-units); platform emojis are `String`s;
fallible operations return `Option`/`Except`; side-effecting platform
interactions are represented by explicit action lists or state passing.
-/

namespace Neo

/-! ## User profiles and the blacklist check (src/neo/core/__init__.py lines 98-105) -/

/-- A cached row of the `user_data` table.  The Python code tests
`p['_blacklisted'] is True`, and the column is nullable, so the field is an
`Option Bool`: only the value `some true` counts as marked blacklisted. -/
structure UserProfile where
  blacklisted : Option Bool
  deriving DecidableEq, Repr

/-- Admission-control denials raised by the check pipeline. -/
inductive Deny
  | CommandOnCooldown (retry_after : ℚ)
  | Blacklisted
  | CheckFailure
  deriving DecidableEq

/-- `NeoBot.check_blacklist`: if the invoker has a cached profile and its
`_blacklisted` field is literally `True`, raise `Blacklisted`; in every other
case return `True`.  Pure: the cache is only read. -/
def check_blacklist (user_cache : Nat → Option UserProfile) (uid : Nat) :
    Except Deny Bool :=
  match user_cache uid with
  | some p => if p.blacklisted = some true then .error .Blacklisted else .ok true
  | none => .ok true

/-! ## Prefix resolution (src/neo/core/__init__.py lines 50-58) -/

/-- A cached row of the `guild_prefs` table; `none` for the `prefixes` field
models a row on which the `'prefixes'` key lookup raises `KeyError`
(which `get_prefix` suppresses). -/
structure GuildPrefs where
  prefixes : Option (List String)
  deriving DecidableEq, Repr

/-- The hard-coded default prefix list `['n/']`. -/
def default_prefixes : List String := ["n/"]

/-- The body of `get_prefix` that computes the variable `prefix`:
start from the default `['n/']`; if the message is in a guild, and the guild
has a cache row, and that row yields a prefix list, use that list (the Python
`list({*row['prefixes']})` builds a set first, modelled here by `dedup`);
a `KeyError` anywhere (no row, or no `'prefixes'` key) keeps the default.
A direct message (`guild = none`) keeps the default. -/
def resolve_prefixes (guild_cache : Nat → Option GuildPrefs)
    (guild : Option Nat) : List String :=
  match guild with
  | none => default_prefixes
  | some g =>
    match guild_cache g with
    | none => default_prefixes
    | some row =>
      match row.prefixes with
      | none => default_prefixes
      | some ps => ps.dedup

/-- `commands.when_mentioned_or(*prefix)`: the two bot-mention forms followed
by the resolved prefixes. -/
def when_mentioned_or (botId : Nat) (ps : List String) : List String :=
  ("<@!" ++ toString botId ++ "> ") :: ("<@" ++ toString botId ++ "> ") :: ps

/-- `get_prefix(bot, message)`: `none` models the early `return` when the bot
is closed; otherwise the mention prefixes followed by the resolved list. -/
def get_prefixes (closed : Bool) (botId : Nat)
    (guild_cache : Nat → Option GuildPrefs) (guild : Option Nat) :
    Option (List String) :=
  if closed then none
  else some (when_mentioned_or botId (resolve_prefixes guild_cache guild))

/-! ## Confirmation prompt (src/neo/context.py lines 77-93) -/

/-- The emoji configuration the code reads from `neo.conf['emojis']`
(the config file is not part of the sources; only the distinctness of the
markers matters for the claims). -/
structure EmojiConf where
  check_button : String
  x_button : String
  deriving DecidableEq, Repr

/-- A `raw_reaction_add` event payload as consumed by `Context.prompt`. -/
structure RawReactionPayload where
  emoji : String
  user_id : Nat
  message_id : Nat
  deriving DecidableEq, Repr

/-- The `check` lambda passed to `bot.wait_for` by `Context.prompt`:
the reacted emoji is one of the two configured markers, the reactor is the
invocation's author, and the reaction is on the prompt message itself. -/
def prompt_check (conf : EmojiConf) (authorId msgId : Nat)
    (p : RawReactionPayload) : Bool :=
  (p.emoji == conf.check_button || p.emoji == conf.x_button)
    && p.user_id == authorId && p.message_id == msgId

/-- The resolution of a prompt: the boolean returned to the caller, the
number of edits performed on the prompt message, and the edited content. -/
structure PromptResult where
  value : Bool
  edits : Nat
  content : String
  deriving DecidableEq, Repr

/-- `Context.prompt`: the suspension on `wait_for` is embedded as the first
event in the incoming stream satisfying `prompt_check`; every earlier event
is skipped and the wait continues (`none` when no event ever matches).
On resolution the message is edited once and the boolean associated with the
marker in the `emojis` dict is returned. -/
def prompt (conf : EmojiConf) (authorId msgId : Nat)
    (events : List RawReactionPayload) : Option PromptResult :=
  (events.find? (prompt_check conf authorId msgId)).map fun p =>
    if p.emoji = conf.check_button then ⟨true, 1, "Confirmed!"⟩
    else ⟨false, 1, "Cancelled!"⟩

/-! ## Loading indicator (src/neo/context.py lines 43-72) -/

/-- A Discord HTTP error as caught by `Loading.__aenter__`; only the
platform error `code` is inspected. -/
structure HTTPError where
  code : Nat
  deriving DecidableEq, Repr

/-- `Loading.__aenter__`: attempt to add the loading reaction; the argument
is the outcome of that attempt (`none` on success, `some e` when the
platform raises `Forbidden`/`HTTPException` `e`).  The exception is always
swallowed (the invocation never fails), and `can_react` is cleared exactly
when the error code is 90001; the function returns the resulting
`can_react` flag. -/
def loading_aenter (addOutcome : Option HTTPError) : Bool :=
  match addOutcome with
  | none => true
  | some e => if e.code = 90001 then false else true

/-- Platform actions performed by the loading indicator. -/
inductive LoadingAction
  | removeLoading
  | addSuccess
  | dispatchError
  deriving DecidableEq, Repr

/-- `Loading.finalise`: add the success tick only when reactions are
possible and the tick is not suppressed. -/
def loading_finalise (can_react tick : Bool) : List LoadingAction :=
  if can_react then (if tick then [.addSuccess] else []) else []

/-- `Loading.__aexit__` over an abstract exception type `α`: always remove
the loading reaction first; if an ignore list is configured and the raised
exception matches it, finalise and swallow; otherwise if `prop` is set and
an exception was raised, dispatch it to the error handler and swallow;
otherwise finalise (the Python function then returns `None`, so an
unswallowed exception would propagate).  Returns the performed actions and
whether the exception is swallowed. -/
def loading_aexit {α : Type} (prop tick can_react : Bool)
    (exc_ignore : Option (α → Bool)) (exc : Option α) :
    List LoadingAction × Bool :=
  let ignored : Bool :=
    match exc_ignore, exc with
    | some f, some e => f e
    | _, _ => false
  if ignored then
    (.removeLoading :: loading_finalise can_react tick, true)
  else if prop && exc.isSome then
    ([.removeLoading, .dispatchError], true)
  else
    (.removeLoading :: loading_finalise can_react tick, false)

/-! ## Error-detail escalation (src/neo/context.py lines 150-164) -/

/-- A `reaction_add` event with its arrival time (time-units after the
escalation wait begins), as consumed by `Context.propagate_error`. -/
structure TimedReaction where
  emoji : String
  user_id : Nat
  message_id : Nat
  time : ℚ
  deriving DecidableEq

/-- The `check` lambda passed to `bot.wait_for` by
`Context.propagate_error`: the reaction is on the original message and comes
from the invoking author or one of the bot owners — note the emoji itself is
not constrained here. -/
def propagate_check (msgId authorId : Nat) (owner_ids : List Nat)
    (r : TimedReaction) : Bool :=
  r.message_id == msgId && (r.user_id == authorId || owner_ids.contains r.user_id)

/-- Platform actions performed by `Context.propagate_error`. -/
inductive ErrorAction
  | addWarning
  | removeWarning
  | sendError
  deriving DecidableEq, Repr

/-- `Context.propagate_error`: with `do_emojis` disabled the error text is
sent directly.  Otherwise the warning marker is added and the code suspends
on `wait_for` with a 30 time-unit timeout, embedded as the first event of
the chronological stream satisfying `propagate_check`: if none arrives, or
the first one arrives after the deadline, the wait times out, the warning
marker is removed and nothing further happens; if it arrives in time, the
error text is sent only when its emoji is the warning marker itself. -/
def propagate_error (warning_button : String) (msgId authorId : Nat)
    (owner_ids : List Nat) (do_emojis : Bool)
    (events : List TimedReaction) : List ErrorAction :=
  if do_emojis = false then [.sendError]
  else
    match events.find? (propagate_check msgId authorId owner_ids) with
    | none => [.addWarning, .removeWarning]
    | some r =>
      if r.time ≤ 30 then
        if r.emoji = warning_button then [.addWarning, .sendError]
        else [.addWarning]
      else [.addWarning, .removeWarning]

/-! ## Before-invoke hook and the user cache (src/neo/core/__init__.py lines 114-119) -/

/-- The row `INSERT INTO user_data (user_id) VALUES ($1)` creates: every
column other than the key takes its schema default (the schema is not in the
sources; the blacklist flag of a fresh row is not `True`). -/
def default_user_row : UserProfile := ⟨none⟩

/-- The bot's preference storage and its in-memory mirror: the `user_data`
table and the `user_cache` built from `SELECT * FROM user_data`. -/
structure BotStore where
  storage : Nat → Option UserProfile
  user_cache : Nat → Option UserProfile

/-- `DbCache.refresh`: rebuild the cache wholesale from storage. -/
def cache_refresh (storage : Nat → Option UserProfile) :
    Nat → Option UserProfile := storage

/-- `NeoBot.before`: when the invoker has no cached profile, insert a fresh
row for them and then refresh the user cache; a `UniqueViolationError` from
the insert (the row already exists in storage) is suppressed, and in that
case the refresh — inside the same suppressed block, after the raise — is
skipped. -/
def before (s : BotStore) (uid : Nat) : BotStore :=
  match s.user_cache uid with
  | some _ => s
  | none =>
    match s.storage uid with
    | some _ => s
    | none =>
      let storage' := fun u => if u = uid then some default_user_row else s.storage u
      ⟨storage', cache_refresh storage'⟩

/-! ## safe_send and token redaction (src/neo/context.py lines 95-110) -/

/-- The regex character class `[a-zA-Z0-9]` (ASCII, as in the source
pattern). -/
def isTokenAlnum (c : Char) : Bool := c.isAlpha || c.isDigit

/-- The regex character class `[a-zA-Z0-9_\-]`. -/
def isTokenChar (c : Char) : Bool := isTokenAlnum c || c == '_' || c == '-'

/-- Match exactly `n` characters satisfying `p` at the front of the list,
returning them together with the remainder. -/
def takeExact (p : Char → Bool) : Nat → List Char → Option (List Char × List Char)
  | 0, cs => some ([], cs)
  | _ + 1, [] => none
  | n + 1, c :: cs =>
    if p c then (takeExact p n cs).map (fun x => (c :: x.1, x.2)) else none

/-- First alternative of the token pattern:
`[a-zA-Z0-9]{24}\.[a-zA-Z0-9]{6}\.[a-zA-Z0-9_\-]{27}` (all quantifiers are
exact counts, so no backtracking is involved). -/
def matchAlt1 (cs : List Char) : Option (List Char) := do
  let x ← takeExact isTokenAlnum 24 cs
  match x.2 with
  | '.' :: rest2 => do
    let y ← takeExact isTokenAlnum 6 rest2
    match y.2 with
    | '.' :: rest4 => do
      let z ← takeExact isTokenChar 27 rest4
      pure (x.1 ++ ('.' :: y.1) ++ ('.' :: z.1))
    | _ => none
  | _ => none

/-- Second alternative of the token pattern: `mfa\.[a-zA-Z0-9_\-]{84}`. -/
def matchAlt2 : List Char → Option (List Char)
  | 'm' :: 'f' :: 'a' :: '.' :: rest =>
    (takeExact isTokenChar 84 rest).map (fun x => 'm' :: 'f' :: 'a' :: '.' :: x.1)
  | _ => none

/-- Match the token pattern at the start of the list; as in the source
regex, the first alternative is tried first. -/
def matchTokenAt (cs : List Char) : Option (List Char) :=
  (matchAlt1 cs).orElse (fun _ => matchAlt2 cs)

/-- `re.search` of the token pattern: the match at the leftmost position
where one of the alternatives matches. -/
def searchToken : List Char → Option (List Char)
  | [] => none
  | c :: cs => (matchTokenAt (c :: cs)).orElse (fun _ => searchToken cs)

/-- The token-redaction step of `Context.safe_send`: when the token pattern
matches somewhere in the content, every occurrence of the matched substring
is replaced by `'[token omitted]'` (Python `str.replace` replaces all
occurrences of the first match's text). -/
def redact (content : String) : String :=
  match searchToken content.data with
  | some m => content.replace (String.mk m) "[token omitted]"
  | none => content

/-- What `safe_send` delivers to the origin channel: either the content
itself or the paste-service URL message. -/
inductive SendOutcome
  | sent (content : String)
  | uploaded (message : String)
  deriving DecidableEq, Repr

/-- `Context.safe_send` on non-empty content: redact a detected token, then
either send the (redacted) content directly when its length is at most
2000, or upload it to the paste service (`paste_key` is the key the service
returns) and send only the URL message. -/
def safe_send (content paste_key : String) : SendOutcome :=
  if (redact content).length > 2000 then
    .uploaded ("Output: <https://mystb.in/" ++ paste_key ++ ">")
  else .sent (redact content)

/-- The text `safe_send` actually sends to the origin channel. -/
def sentText : SendOutcome → String
  | .sent c => c
  | .uploaded m => m

/-! ## Global cooldown (src/neo/core/__init__.py lines 71-73 and 107-112) -/

/-- A rate-limit bucket: the available tokens and the time of the last
update. -/
structure Bucket where
  tokens : ℚ
  last : ℚ
  deriving DecidableEq

/-- The capacity `2.0` passed to `CooldownMapping.from_cooldown`. -/
def bucket_capacity : ℚ := 2

/-- The window `2.5` passed to `CooldownMapping.from_cooldown`. -/
def refill_window : ℚ := 5 / 2

/-- The refill rate of the bucket: capacity per window, 4/5 tokens per
time-unit. -/
def refill_rate : ℚ := bucket_capacity / refill_window

/-- Modelled from the spec: the bucket implementation behind
`commands.CooldownMapping.from_cooldown(2.0, 2.5, commands.BucketType.user)`
lives in the discord.py library and is not among the sources; the spec
describes it as a token bucket of capacity 2 tokens refilling over a
2.5-time-unit window.  `update_rate_limit` at time `now`: refill
proportionally to the elapsed time (capped at capacity); if less than one
token is available, deny and report the time until a full token has
refilled; otherwise consume one token. -/
def Bucket.update (b : Bucket) (now : ℚ) : Option ℚ × Bucket :=
  if min bucket_capacity (b.tokens + (now - b.last) * refill_rate) < 1 then
    (some ((1 - min bucket_capacity (b.tokens + (now - b.last) * refill_rate))
        / refill_rate),
     ⟨min bucket_capacity (b.tokens + (now - b.last) * refill_rate), now⟩)
  else
    (none, ⟨min bucket_capacity (b.tokens + (now - b.last) * refill_rate) - 1, now⟩)

/-- `self._cd.get_bucket(ctx.message)`: the invoker's bucket, a full fresh
one the first time an invoker is seen. -/
def get_bucket (cd : Nat → Option Bucket) (uid : Nat) (now : ℚ) : Bucket :=
  (cd uid).getD ⟨bucket_capacity, now⟩

/-- `NeoBot.global_cooldown`: update the invoker's bucket in the per-invoker
mapping; a `some retry_after` first component models raising
`commands.CommandOnCooldown(bucket, retry_after)`. -/
def global_cooldown (cd : Nat → Option Bucket) (uid : Nat) (now : ℚ) :
    Option ℚ × (Nat → Option Bucket) :=
  ((Bucket.update (get_bucket cd uid now) now).1,
   fun u => if u = uid then some (Bucket.update (get_bucket cd uid now) now).2
            else cd u)

/-! ## Admission-control pipeline (src/neo/core/__init__.py lines 73-75) -/

/-- The observable state of one invocation attempt: the process-wide bucket
mapping and user cache, plus side-effect counters recording how often each
stage and the executor ran. -/
structure InvState where
  cd : Nat → Option Bucket
  user_cache : Nat → Option UserProfile
  cooldownEvals : Nat
  blacklistEvals : Nat
  commandEvals : Nat
  executorRuns : Nat

/-- Modelled from the spec: the check-running machinery (discord.py's
`Bot.invoke`/`can_run`) is not among the sources; the spec's contract is an
ordered list of predicates evaluated strictly in order, a denial
short-circuiting the remaining checks. -/
def run_checks (checks : List (InvState → InvState × Option Deny))
    (s : InvState) : InvState × Option Deny :=
  match checks with
  | [] => (s, none)
  | c :: cs =>
    match (c s).2 with
    | none => run_checks cs (c s).1
    | some d => ((c s).1, some d)

/-- Modelled from the spec: a denial short-circuits the Executor as well;
the handler body runs only when every check allowed the invocation. -/
def run_invocation (checks : List (InvState → InvState × Option Deny))
    (executor : InvState → InvState) (s : InvState) : InvState × Option Deny :=
  match (run_checks checks s).2 with
  | none => (executor (run_checks checks s).1, none)
  | some d => ((run_checks checks s).1, some d)

/-- Pipeline stage (1), from `add_check(self.global_cooldown, call_once=True)`:
consult the invoker's token bucket, bumping the stage's side-effect
counter. -/
def cooldownStage (uid : Nat) (now : ℚ) (s : InvState) :
    InvState × Option Deny :=
  (⟨(global_cooldown s.cd uid now).2, s.user_cache, s.cooldownEvals + 1,
      s.blacklistEvals, s.commandEvals, s.executorRuns⟩,
   (global_cooldown s.cd uid now).1.map .CommandOnCooldown)

/-- Pipeline stage (2), from `add_check(self.check_blacklist)`: the cached
blacklist lookup, bumping the stage's side-effect counter. -/
def blacklistStage (uid : Nat) (s : InvState) : InvState × Option Deny :=
  (⟨s.cd, s.user_cache, s.cooldownEvals, s.blacklistEvals + 1,
      s.commandEvals, s.executorRuns⟩,
   match check_blacklist s.user_cache uid with
   | .error d => some d
   | .ok _ => none)

/-- Pipeline stage (3): the per-command checks declared alongside the
command, bumping the stage's side-effect counter. -/
def commandStage (cmd_check : InvState → Bool) (s : InvState) :
    InvState × Option Deny :=
  (⟨s.cd, s.user_cache, s.cooldownEvals, s.blacklistEvals,
      s.commandEvals + 1, s.executorRuns⟩,
   if cmd_check s then none else some .CheckFailure)

/-- The Executor: runs the handler body, recorded by its counter. -/
def executor (s : InvState) : InvState :=
  ⟨s.cd, s.user_cache, s.cooldownEvals, s.blacklistEvals,
    s.commandEvals, s.executorRuns + 1⟩

/-- The admission-control pipeline as wired in `NeoBot.__init__`: global
rate limit, then blacklist check, then per-command checks. -/
def neo_checks (uid : Nat) (now : ℚ) (cmd_check : InvState → Bool) :
    List (InvState → InvState × Option Deny) :=
  [cooldownStage uid now, blacklistStage uid, commandStage cmd_check]

end Neo

namespace Neo

/-! ## Claim theorems: C3, C4 -/

/-- C3: `check_blacklist` raises `Blacklisted` if and only if the invoker's
cached profile exists and marks them blacklisted (`_blacklisted is True`);
an invoker with no cached profile, or whose profile does not mark them
blacklisted, passes the stage with `True`.  The stage is a pure function of
the cache, so it has no side effect beyond the lookup. -/
theorem check_blacklist_spec (user_cache : Nat → Option UserProfile) (uid : Nat) :
    (check_blacklist user_cache uid = .error .Blacklisted ↔
      ∃ p, user_cache uid = some p ∧ p.blacklisted = some true) ∧
    (∀ p, user_cache uid = some p → p.blacklisted ≠ some true →
      check_blacklist user_cache uid = .ok true) ∧
    (user_cache uid = none → check_blacklist user_cache uid = .ok true) := by
  refine ⟨?_, ?_, ?_⟩
  · constructor
    · intro h
      cases hc : user_cache uid with
      | none => simp [check_blacklist, hc] at h
      | some p =>
        by_cases hb : p.blacklisted = some true
        · exact ⟨p, rfl, hb⟩
        · simp [check_blacklist, hc, hb] at h
    · rintro ⟨p, hc, hb⟩
      simp [check_blacklist, hc, hb]
  · intro p hc hb
    simp [check_blacklist, hc, hb]
  · intro hc
    simp [check_blacklist, hc]

/-- Witness for C3 at a concrete cache: a cache with no entry for user 0
passes the blacklist stage. -/
theorem check_blacklist_spec_witness :
    check_blacklist (fun _ => none) 0 = .ok true :=
  (check_blacklist_spec (fun _ => none) 0).2.2 rfl

/-- C4 counterexample: the claim says an existing override that is empty
falls back to the default set; in the code an existing empty override is used
as-is, so prefix resolution yields the empty list, not `["n/"]`. -/
theorem resolve_prefixes_empty_override :
    resolve_prefixes (fun g => if g = 1 then some ⟨some []⟩ else none) (some 1)
      = [] ∧
    ([] : List String) ≠ default_prefixes := by
  constructor
  · rfl
  · simp [default_prefixes]

/-- C4 (amended): prefix resolution returns the fixed default set when the
message has no guild (direct message), when the guild has no cache row, or
when the row omits the override; but an existing override is used as-is, so
an existing empty override yields the empty list (only mention prefixes
remain), not the default set. -/
theorem resolve_prefixes_spec (guild_cache : Nat → Option GuildPrefs)
    (g botId : Nat) :
    resolve_prefixes guild_cache none = default_prefixes ∧
    (guild_cache g = none →
      resolve_prefixes guild_cache (some g) = default_prefixes) ∧
    (guild_cache g = some ⟨none⟩ →
      resolve_prefixes guild_cache (some g) = default_prefixes) ∧
    (guild_cache g = some ⟨some []⟩ →
      resolve_prefixes guild_cache (some g) = [] ∧
      get_prefixes false botId guild_cache (some g) =
        some (when_mentioned_or botId [])) := by
  refine ⟨rfl, ?_, ?_, ?_⟩
  · intro h; simp [resolve_prefixes, h]
  · intro h; simp [resolve_prefixes, h]
  · intro h
    constructor
    · simp [resolve_prefixes, h]
    · simp [get_prefixes, resolve_prefixes, h]

/-- Witness for C4 (amended) at a concrete cache. -/
theorem resolve_prefixes_spec_witness :
    resolve_prefixes (fun _ => none) (some 3) = default_prefixes :=
  (resolve_prefixes_spec (fun _ => none) 3 0).2.1 rfl

/-- C5: the prompt wait resolves only on a reaction by the invoking author,
on the prompt message itself, with one of the two configured markers: any
other event is skipped and the wait continues on the rest of the stream.
On resolution the prompt message is edited exactly once, and the call
returns `true` for the accept marker and `false` for the reject marker. -/
theorem prompt_spec (conf : EmojiConf) (authorId msgId : Nat)
    (e : RawReactionPayload) (events : List RawReactionPayload)
    (hconf : conf.check_button ≠ conf.x_button) :
    ((e.user_id ≠ authorId ∨ e.message_id ≠ msgId ∨
        (e.emoji ≠ conf.check_button ∧ e.emoji ≠ conf.x_button)) →
      prompt conf authorId msgId (e :: events) =
        prompt conf authorId msgId events) ∧
    (e.user_id = authorId → e.message_id = msgId →
      e.emoji = conf.check_button →
      prompt conf authorId msgId (e :: events) =
        some ⟨true, 1, "Confirmed!"⟩) ∧
    (e.user_id = authorId → e.message_id = msgId →
      e.emoji = conf.x_button →
      prompt conf authorId msgId (e :: events) =
        some ⟨false, 1, "Cancelled!"⟩) := by
  refine ⟨?_, ?_, ?_⟩
  · intro h
    have hfalse : prompt_check conf authorId msgId e = false := by
      rcases h with h | h | ⟨h1, h2⟩
      · simp [prompt_check, h]
      · simp [prompt_check, h]
      · simp [prompt_check, h1, h2]
    unfold prompt
    rw [List.find?_cons_of_neg _ (by simp [hfalse])]
  · intro hu hm he
    have htrue : prompt_check conf authorId msgId e = true := by
      simp [prompt_check, hu, hm, he]
    unfold prompt
    rw [List.find?_cons_of_pos _ htrue]
    simp [he]
  · intro hu hm he
    have htrue : prompt_check conf authorId msgId e = true := by
      simp [prompt_check, hu, hm, he]
    have hne : e.emoji ≠ conf.check_button := by
      rw [he]; exact fun hc => hconf hc.symm
    unfold prompt
    rw [List.find?_cons_of_pos _ htrue]
    simp [hne]

/-- Witness for C5 at a concrete configuration and event stream. -/
theorem prompt_spec_witness :
    prompt ⟨"Y", "N"⟩ 7 5 [⟨"Y", 7, 5⟩] = some ⟨true, 1, "Confirmed!"⟩ :=
  (prompt_spec ⟨"Y", "N"⟩ 7 5 ⟨"Y", 7, 5⟩ [] (by decide)).2.1 rfl rfl rfl

/-- C6 counterexample: the claim says a permission denial of the working
marker makes the whole indicator (including the later marker removal) a
no-op.  In the code, a plain missing-permissions error (code 50013) does not
clear `can_react` at all, and even for the one handled code (90001) the
`__aexit__` path still performs the unconditional `remove_reaction` call, so
the removal step is not a no-op. -/
theorem loading_permission_denial_not_noop :
    loading_aenter (some ⟨50013⟩) = true ∧
    loading_aenter (some ⟨90001⟩) = false ∧
    (loading_aexit true true false (none : Option (Nat → Bool))
        (none : Option Nat)).1 = [.removeLoading] ∧
    [LoadingAction.removeLoading] ≠ [] := by decide

/-- C6 (amended): if attaching the working marker raises a platform error,
the exception is swallowed and the invocation does not fail; the indicator
degrades (`can_react := False`) exactly when the error code is 90001, in
which case the success-finalization step becomes a no-op — but the
marker-removal call on exit is still attempted unconditionally. -/
theorem loading_aenter_spec (e : HTTPError) (prop tick : Bool) :
    (loading_aenter (some e) = false ↔ e.code = 90001) ∧
    loading_finalise false tick = [] ∧
    loading_aexit prop tick false (none : Option (Nat → Bool))
        (none : Option Nat) = ([.removeLoading], false) := by
  refine ⟨?_, ?_, ?_⟩
  · unfold loading_aenter
    by_cases hc : e.code = 90001 <;> simp [hc]
  · simp [loading_finalise]
  · unfold loading_aexit
    simp [loading_finalise]

/-- C7: with propagation enabled and reactions available, handler success
replaces the working marker with the success marker (unless the tick is
suppressed); a raised exception has the marker removed and is dispatched to
the error reporter and swallowed rather than propagated — unless a
configured ignore list matches it, in which case it is swallowed and the
success finalisation runs instead of the dispatch. -/
theorem loading_aexit_spec {α : Type} (tick : Bool) (f : α → Bool) (e : α) :
    (∀ ig : Option (α → Bool),
      loading_aexit true tick true ig (none : Option α) =
        (.removeLoading :: loading_finalise true tick, false)) ∧
    (loading_aexit true tick true (none : Option (α → Bool)) (some e) =
      ([.removeLoading, .dispatchError], true)) ∧
    (f e = false → loading_aexit true tick true (some f) (some e) =
      ([.removeLoading, .dispatchError], true)) ∧
    (f e = true → loading_aexit true tick true (some f) (some e) =
      (.removeLoading :: loading_finalise true tick, true)) := by
  refine ⟨?_, ?_, ?_, ?_⟩
  · intro ig
    cases ig <;> simp [loading_aexit]
  · simp [loading_aexit]
  · intro h; simp [loading_aexit, h]
  · intro h; simp [loading_aexit, h]

/-- Witness for C7: a matching ignorable exception is swallowed and
finalised with the success marker. -/
theorem loading_aexit_spec_witness :
    loading_aexit true true true (some (fun _ : Nat => true)) (some 0) =
      ([.removeLoading, .addSuccess], true) := by
  have h := (loading_aexit_spec true (fun _ : Nat => true) 0).2.2.2 rfl
  simpa [loading_finalise] using h

/-- C8 counterexample: the claim says a marker-add response from the invoker
within the 30 time-unit window causes the full error detail to be sent; but
the wait resolves on *any* emoji from the invoker or an owner, and the
detail is sent only when the resolving emoji is the warning marker itself —
here the invoker (user 7) reacts with a non-warning emoji at time 1 on the
original message (id 5), the wait resolves, and no error detail is sent
(the warning marker is not removed either). -/
theorem propagate_error_nonwarning_response :
    propagate_error "W" 5 7 [9] true [⟨"T", 7, 5, 1⟩] = [.addWarning] ∧
    ErrorAction.sendError ∉ propagate_error "W" 5 7 [9] true [⟨"T", 7, 5, 1⟩] := by
  constructor
  · rfl
  · intro hmem
    have h : propagate_error "W" 5 7 [9] true [⟨"T", 7, 5, 1⟩]
        = [.addWarning] := rfl
    rw [h] at hmem
    simp at hmem

/-- C8 (amended): with emojis enabled, the warning marker is attached and
the reporter waits at most 30 time-units for a marker-add response from the
invoker or a privileged operator; the first such response, arriving within
the window, resolves the wait and the full error detail is sent exactly when
its marker is the warning marker (any other marker resolves the wait with
nothing sent); if no qualifying response arrives within the window, the
warning marker is removed and nothing further happens. -/
theorem propagate_error_spec (warning_button : String) (msgId authorId : Nat)
    (owner_ids : List Nat) (events : List TimedReaction) (r : TimedReaction) :
    (events.find? (propagate_check msgId authorId owner_ids) = none →
      propagate_error warning_button msgId authorId owner_ids true events =
        [.addWarning, .removeWarning]) ∧
    (events.find? (propagate_check msgId authorId owner_ids) = some r →
      (r.time ≤ 30 → r.emoji = warning_button →
        propagate_error warning_button msgId authorId owner_ids true events =
          [.addWarning, .sendError]) ∧
      (r.time ≤ 30 → r.emoji ≠ warning_button →
        propagate_error warning_button msgId authorId owner_ids true events =
          [.addWarning]) ∧
      (¬ r.time ≤ 30 →
        propagate_error warning_button msgId authorId owner_ids true events =
          [.addWarning, .removeWarning])) := by
  constructor
  · intro h
    simp [propagate_error, h]
  · intro h
    refine ⟨?_, ?_, ?_⟩
    · intro ht he
      simp [propagate_error, h, ht, he]
    · intro ht he
      simp [propagate_error, h, ht, he]
    · intro ht
      simp [propagate_error, h, ht]

/-- Witness for C8 (amended): with no qualifying response the wait times out
and the warning marker is removed. -/
theorem propagate_error_spec_witness :
    propagate_error "W" 5 7 [9] true [] = [.addWarning, .removeWarning] :=
  (propagate_error_spec "W" 5 7 [9] [] ⟨"", 0, 0, 0⟩).1 rfl

/-- C9: the only write the pipeline makes to preference storage (the
before-invoke insert of a fresh profile row for an invoker absent from the
user cache) is immediately followed by a wholesale cache refresh: whenever
`before` changes storage, the resulting cache agrees with the resulting
storage everywhere, and in the insert scenario the new row is visible in the
cache before the pipeline continues. -/
theorem before_cache_consistent (s : BotStore) (uid u : Nat) :
    ((before s uid).storage uid ≠ s.storage uid →
      (before s uid).user_cache u = (before s uid).storage u) ∧
    (s.user_cache uid = none → s.storage uid = none →
      (before s uid).user_cache uid = some default_user_row ∧
      (before s uid).user_cache u = (before s uid).storage u) := by
  constructor
  · intro hw
    cases hc : s.user_cache uid with
    | some p => simp [before, hc] at hw
    | none =>
      cases hs : s.storage uid with
      | some p => simp [before, hc, hs] at hw
      | none => simp [before, hc, hs, cache_refresh]
  · intro hc hs
    constructor
    · simp [before, hc, hs, cache_refresh]
    · simp [before, hc, hs, cache_refresh]

/-- Witness for C9 at a concrete store: after the first command of user 1,
the inserted row is visible in the cache and cache agrees with storage. -/
theorem before_cache_consistent_witness :
    (before ⟨fun _ => none, fun _ => none⟩ 1).user_cache 1 =
      some default_user_row :=
  ((before_cache_consistent ⟨fun _ => none, fun _ => none⟩ 1 1).2 rfl rfl).1

/-- C10: `safe_send` never sends more than 2000 characters directly to the
origin channel (given that the paste service returns a key of reasonable
length): content whose length after token redaction is at most 2000 is sent
verbatim (redacted), while longer content is uploaded to the paste service
and only the URL message is sent in its place. -/
theorem safe_send_spec (content paste_key : String)
    (hk : paste_key.length ≤ 1900) :
    (sentText (safe_send content paste_key)).length ≤ 2000 ∧
    ((redact content).length ≤ 2000 →
      safe_send content paste_key = .sent (redact content)) ∧
    (2000 < (redact content).length →
      safe_send content paste_key =
        .uploaded ("Output: <https://mystb.in/" ++ paste_key ++ ">")) := by
  refine ⟨?_, ?_, ?_⟩
  · unfold safe_send
    by_cases h : (redact content).length > 2000
    · rw [if_pos h]
      show ("Output: <https://mystb.in/" ++ paste_key ++ ">").length ≤ 2000
      rw [String.length_append, String.length_append]
      have h1 : ("Output: <https://mystb.in/" : String).length = 26 := rfl
      have h2 : (">" : String).length = 1 := rfl
      omega
    · rw [if_neg h]
      show (redact content).length ≤ 2000
      omega
  · intro h
    unfold safe_send
    rw [if_neg (by omega)]
  · intro h
    unfold safe_send
    rw [if_pos (by omega)]

/-- Witness for C10: short content is sent verbatim and within the limit. -/
theorem safe_send_spec_witness :
    (sentText (safe_send "hello" "abc")).length ≤ 2000 ∧
    safe_send "hello" "abc" = .sent (redact "hello") := by
  have h := safe_send_spec "hello" "abc" (by decide)
  exact ⟨h.1, h.2.1 (by decide)⟩

/-- The refill rate evaluates to 4/5 tokens per time-unit. -/
theorem refill_rate_eq : refill_rate = 4 / 5 := by
  norm_num [refill_rate, bucket_capacity, refill_window]

/-- `Bucket.update` unfolded on an explicit bucket. -/
theorem Bucket.update_eq (tok l now : ℚ) :
    Bucket.update ⟨tok, l⟩ now =
      if min bucket_capacity (tok + (now - l) * refill_rate) < 1 then
        (some ((1 - min bucket_capacity (tok + (now - l) * refill_rate))
            / refill_rate),
         ⟨min bucket_capacity (tok + (now - l) * refill_rate), now⟩)
      else
        (none, ⟨min bucket_capacity (tok + (now - l) * refill_rate) - 1, now⟩) :=
  rfl

/-- A freshly created (full) bucket allows its first invocation and keeps
one token. -/
theorem Bucket.update_fresh (t : ℚ) :
    Bucket.update ⟨bucket_capacity, t⟩ t = (none, ⟨1, t⟩) := by
  rw [Bucket.update_eq]
  have h : min bucket_capacity (bucket_capacity + (t - t) * refill_rate) = 2 := by
    norm_num [bucket_capacity]
  rw [h, if_neg (by norm_num)]
  norm_num

/-- C1: the global rate-limit stage keeps a token bucket of capacity 2
refilling over a 2.5-time-unit window per invoker; exhaustion raises
cooldown-exceeded with a (positive) retry-after duration.  Three invocations
by the same invoker within a window shorter than 1.25 time-units see
exactly one denial, on the third; and the bucket is keyed per invoker: a
different invoker at the same moment is not denied. -/
theorem global_cooldown_spec (uid other : Nat) (t1 t2 t3 : ℚ)
    (h12 : t1 ≤ t2) (h23 : t2 ≤ t3) (hwin : t3 - t1 < 5 / 4)
    (hother : other ≠ uid) :
    (global_cooldown (fun _ => none) uid t1).1 = none ∧
    (global_cooldown ((global_cooldown (fun _ => none) uid t1).2) uid t2).1
      = none ∧
    (∃ ra, 0 < ra ∧
      (global_cooldown ((global_cooldown ((global_cooldown (fun _ => none)
          uid t1).2) uid t2).2) uid t3).1 = some ra) ∧
    (global_cooldown ((global_cooldown ((global_cooldown (fun _ => none)
        uid t1).2) uid t2).2) other t3).1 = none := by
  have hrr : refill_rate = 4 / 5 := refill_rate_eq
  have hrrpos : (0 : ℚ) < refill_rate := by rw [hrr]; norm_num
  -- first invocation: fresh full bucket, allowed
  have hb1 : get_bucket (fun _ => none) uid t1 = ⟨bucket_capacity, t1⟩ := rfl
  have hg1 : global_cooldown (fun _ => none) uid t1 =
      (none, fun u => if u = uid then some (⟨1, t1⟩ : Bucket) else none) := by
    unfold global_cooldown
    rw [hb1, Bucket.update_fresh]
  -- second invocation: at least one token has survived, allowed
  have hb2 : get_bucket
      (fun u => if u = uid then some (⟨1, t1⟩ : Bucket) else none) uid t2 =
      ⟨1, t1⟩ := by
    simp [get_bucket]
  have htk2_ge : 1 ≤ min bucket_capacity (1 + (t2 - t1) * refill_rate) := by
    apply le_min
    · norm_num [bucket_capacity]
    · nlinarith [mul_nonneg (sub_nonneg.mpr h12) (le_of_lt hrrpos)]
  have hu2 : Bucket.update ⟨1, t1⟩ t2 =
      (none, ⟨min bucket_capacity (1 + (t2 - t1) * refill_rate) - 1, t2⟩) := by
    rw [Bucket.update_eq, if_neg (not_lt.mpr htk2_ge)]
  have hg2 : global_cooldown
      (fun u => if u = uid then some (⟨1, t1⟩ : Bucket) else none) uid t2 =
      (none, fun u => if u = uid then
          some (⟨min bucket_capacity (1 + (t2 - t1) * refill_rate) - 1, t2⟩ : Bucket)
        else if u = uid then some (⟨1, t1⟩ : Bucket) else none) := by
    unfold global_cooldown
    rw [hb2, hu2]
  -- third invocation: strictly less than one token has refilled, denied
  have hb3 : get_bucket
      (fun u => if u = uid then
          some (⟨min bucket_capacity (1 + (t2 - t1) * refill_rate) - 1, t2⟩ : Bucket)
        else if u = uid then some (⟨1, t1⟩ : Bucket) else none) uid t3 =
      ⟨min bucket_capacity (1 + (t2 - t1) * refill_rate) - 1, t2⟩ := by
    simp [get_bucket]
  have a1 : min bucket_capacity (1 + (t2 - t1) * refill_rate) ≤
      1 + (t2 - t1) * refill_rate := min_le_right _ _
  have a2 : min bucket_capacity
        ((min bucket_capacity (1 + (t2 - t1) * refill_rate) - 1)
          + (t3 - t2) * refill_rate) ≤
      (min bucket_capacity (1 + (t2 - t1) * refill_rate) - 1)
        + (t3 - t2) * refill_rate := min_le_right _ _
  have htk3_lt : min bucket_capacity
      ((min bucket_capacity (1 + (t2 - t1) * refill_rate) - 1)
        + (t3 - t2) * refill_rate) < 1 := by
    rw [hrr] at a1 a2 ⊢
    linarith
  have hu3 : Bucket.update
      ⟨min bucket_capacity (1 + (t2 - t1) * refill_rate) - 1, t2⟩ t3 =
      (some ((1 - min bucket_capacity
          ((min bucket_capacity (1 + (t2 - t1) * refill_rate) - 1)
            + (t3 - t2) * refill_rate)) / refill_rate),
       ⟨min bucket_capacity
          ((min bucket_capacity (1 + (t2 - t1) * refill_rate) - 1)
            + (t3 - t2) * refill_rate), t3⟩) := by
    rw [Bucket.update_eq, if_pos htk3_lt]
  have hrapos : 0 < (1 - min bucket_capacity
      ((min bucket_capacity (1 + (t2 - t1) * refill_rate) - 1)
        + (t3 - t2) * refill_rate)) / refill_rate :=
    div_pos (by linarith) hrrpos
  -- a different invoker is keyed to its own fresh bucket, allowed
  have hb4 : get_bucket
      (fun u => if u = uid then
          some (⟨min bucket_capacity (1 + (t2 - t1) * refill_rate) - 1, t2⟩ : Bucket)
        else if u = uid then some (⟨1, t1⟩ : Bucket) else none) other t3 =
      ⟨bucket_capacity, t3⟩ := by
    simp [get_bucket, hother]
  refine ⟨?_, ?_, ?_, ?_⟩
  · rw [hg1]
  · simp only [hg1]
    rw [hg2]
  · refine ⟨_, hrapos, ?_⟩
    simp only [hg1, hg2]
    unfold global_cooldown
    rw [hb3, hu3]
  · simp only [hg1, hg2]
    unfold global_cooldown
    rw [hb4, Bucket.update_fresh]

/-- Witness for C1: the first of three back-to-back invocations is
allowed. -/
theorem global_cooldown_spec_witness :
    (global_cooldown (fun _ => none) 1 0).1 = none :=
  (global_cooldown_spec 1 0 0 0 0 le_rfl le_rfl (by norm_num) (by decide)).1

/-- C2: the admission-control stages run strictly in the order global rate
limit, blacklist check, per-command checks; when the rate-limit stage
denies, the invocation ends with that denial, the blacklist and per-command
side-effect counters are untouched (those stages are never evaluated), and
the executor never runs. -/
theorem admission_short_circuit (s : InvState) (uid : Nat) (now : ℚ)
    (cmd_check : InvState → Bool) (ra : ℚ)
    (hdeny : (global_cooldown s.cd uid now).1 = some ra) :
    (run_invocation (neo_checks uid now cmd_check) executor s).2 =
      some (.CommandOnCooldown ra) ∧
    (run_invocation (neo_checks uid now cmd_check) executor s).1.blacklistEvals
      = s.blacklistEvals ∧
    (run_invocation (neo_checks uid now cmd_check) executor s).1.commandEvals
      = s.commandEvals ∧
    (run_invocation (neo_checks uid now cmd_check) executor s).1.executorRuns
      = s.executorRuns ∧
    (run_invocation (neo_checks uid now cmd_check) executor s).1.cooldownEvals
      = s.cooldownEvals + 1 := by
  refine ⟨?_, ?_, ?_, ?_, ?_⟩ <;>
    simp [run_invocation, run_checks, neo_checks, cooldownStage, hdeny]

/-- Witness for C2 at a concrete state whose bucket for invoker 1 is
exhausted at time 0. -/
theorem admission_short_circuit_witness :
    (run_invocation (neo_checks 1 0 (fun _ => true)) executor
        ⟨fun _ => some ⟨0, 0⟩, fun _ => none, 0, 0, 0, 0⟩).2 =
      some (.CommandOnCooldown (5 / 4)) :=
  (admission_short_circuit ⟨fun _ => some ⟨0, 0⟩, fun _ => none, 0, 0, 0, 0⟩
    1 0 (fun _ => true) (5 / 4) (by
      show (global_cooldown (fun _ => some ⟨0, 0⟩) 1 0).1 = some (5 / 4)
      have hm : min bucket_capacity ((0 : ℚ) + (0 - 0) * refill_rate) = 0 := by
        norm_num [bucket_capacity, min_def, refill_rate, refill_window]
      unfold global_cooldown
      rw [show get_bucket (fun _ => some ⟨0, 0⟩) 1 0 = ⟨0, 0⟩ from rfl,
          Bucket.update_eq, hm, if_pos (by norm_num : (0 : ℚ) < 1)]
      norm_num [refill_rate_eq])).1

end Neo
